import Mathlib

/-
  Verification of the s3-checker candidate-generation-and-scan pipeline
  (zapstiko/S3-Checker). The Go sources are shallowly embedded: pure
  functions become Lean functions over the same data; each network or
  CLI interaction is passed in as an explicit outcome value
  (Option for transport failure, status codes as Nat).
-/

namespace S3Checker

/-- The fixed environment-tag list shared by every variant of the tool. -/
def environments : List String :=
  ["dev", "development", "stage", "s3", "staging", "prod", "production", "test"]

/-- The five env-join templates of generateWordlist
    (Go: "%s-%s-%s", "%s-%s.%s", "%s-%s%s", "%s.%s-%s", "%s.%s.%s"). -/
def envFormats (p w e : String) : List String :=
  [p ++ "-" ++ w ++ "-" ++ e,
   p ++ "-" ++ w ++ "." ++ e,
   p ++ "-" ++ w ++ e,
   p ++ "." ++ w ++ "-" ++ e,
   p ++ "." ++ w ++ "." ++ e]

/-- The three two-part templates (Go: "%s.%s", "%s-%s", "%s%s"). -/
def hostFormats (a b : String) : List String :=
  [a ++ "." ++ b, a ++ "-" ++ b, a ++ b]

/-- All env-tag combinations inserted by the first loop of generateWordlist. -/
def envCombos (pfx : String) (words : List String) : List String :=
  words.flatMap fun w => environments.flatMap fun e => envFormats pfx w e

/-- All two-part combinations inserted by the second loop of generateWordlist
    (both orders, prefix-word and word-prefix). -/
def hostCombos (pfx : String) (words : List String) : List String :=
  words.flatMap fun w => hostFormats pfx w ++ hostFormats w pfx

/-- generateWordlist of src/unnamed/part_000 lines 94-126 (also part_002,
    part_003 and the later main.go variants): the prefix itself, the env-tag
    combinations, and the two-part combinations, collected into a set. -/
def generateWordlist (pfx : String) (words : List String) : Finset String :=
  insert pfx ((envCombos pfx words).toFinset ∪ (hostCombos pfx words).toFinset)

/-- generateWordlist of the first main.go variant (src/main.go lines 228-252),
    which has only the env-tag loop and no two-part combinations. -/
def generateWordlistEnvOnly (pfx : String) (words : List String) : Finset String :=
  insert pfx (envCombos pfx words).toFinset

/-- Substring containment on character lists (Go strings.Contains). -/
def containsList (hay need : List Char) : Bool :=
  match hay with
  | [] => need.isEmpty
  | _ :: t => need.isPrefixOf hay || containsList t need

/-- strings.Contains on strings, via the character lists. -/
def containsSub (s sub : String) : Bool := containsList s.data sub.data

/-- strings.ToLower, character by character. -/
def lowerStr (s : String) : String := String.mk (s.data.map Char.toLower)

/-- The virtual-hosted endpoint URL every variant builds,
    fmt.Sprintf of http with the bucket and s3.amazonaws.com. -/
def bucketURL (b : String) : String := "http://" ++ b ++ ".s3.amazonaws.com"

/-- The output line of the part_000 and later main.go scan loops,
    fmt.Sprintf of url, status code and permission separated by pipes. -/
def resultLine (url : String) (code : Nat) (perm : String) : String :=
  url ++ " | " ++ toString code ++ " | " ++ perm

/-- Exists of src/main.go lines 107-122. The HTTP outcome is explicit:
    none is a transport failure and yields (false, 0); status 200, 403 and
    301 count as existing. -/
def S3Exists (resp : Option Nat) : Bool × Nat :=
  match resp with
  | none => (false, 0)
  | some code => (code == 200 || code == 403 || code == 301, code)

/-- Exists of the second main.go variant lines 457-470: transport failure
    gives (false, 0); only 200 and 403 count as existing. -/
def ExistsV2 (resp : Option Nat) : Bool × Nat :=
  match resp with
  | none => (false, 0)
  | some code => (code == 200 || code == 403, code)

/-- Check of src/unnamed/part_000 lines 71-89: transport failure gives
    (0, empty); 200 is PUBLIC, 403 is PRIVATE, any other code has an empty
    permission string. -/
def S3Check (resp : Option Nat) : Nat × String :=
  match resp with
  | none => (0, "")
  | some 200 => (200, "PUBLIC")
  | some 403 => (403, "PRIVATE")
  | some code => (code, "")

/-- awsPermissionCheck of src/unnamed/part_002 lines 439-471. The CLI
    interaction is explicit: the aws flag, whether the CLI binary is on the
    path, whether the no-credential listing exited cleanly, and its combined
    output. A clean exit is PUBLIC; an output containing access denied or
    all access disabled is PRIVATE; otherwise no signal. -/
def awsPermissionCheck (useAWS awsAvailable runOk : Bool) (output : String) :
    String :=
  if !useAWS then ""
  else if !awsAvailable then ""
  else
    let out := lowerStr output
    if runOk then "PUBLIC"
    else if containsSub out ("access denied") ||
        containsSub out ("all access disabled") then "PRIVATE"
    else ""

/-- One iteration of scanBuckets of src/unnamed/part_002 lines 520-541: the
    HTTP Check verdict, overridden by any non-empty AWS CLI verdict; an empty
    permission suppresses the candidate, otherwise one line is produced. -/
def scanStep002 (bucket : String) (resp : Option Nat)
    (useAWS awsAvailable runOk : Bool) (output : String) : Option String :=
  let cp := S3Check resp
  let awsPerm := awsPermissionCheck useAWS awsAvailable runOk output
  let perm := if awsPerm ≠ "" then awsPerm else cp.2
  if perm = "" then none
  else some (resultLine (bucketURL bucket) cp.1 perm)

/-- classifyPermissions of src/main.go lines 1150-1182 (same logic as lines
    491-516): PUBLIC when the list-type=2 request returns 200 or when the
    enabled and available AWS CLI lists without credentials; else PRIVATE. -/
def classifyPermissions (listResp : Option Nat)
    (useAWS awsAvailable awsRunOk : Bool) : String :=
  let httpPublic := listResp == some 200
  let awsPublic := useAWS && awsAvailable && awsRunOk
  if httpPublic || awsPublic then "PUBLIC" else "PRIVATE"

/-- One iteration of scanBuckets of src/unnamed/part_000 lines 164-178:
    an empty permission from Check suppresses the candidate, otherwise one
    line url, code, permission is emitted. -/
def scanStep000 (bucket : String) (resp : Option Nat) : Option String :=
  let cp := S3Check resp
  if cp.2 = "" then none
  else some (resultLine (bucketURL bucket) cp.1 cp.2)

/-- One iteration of scanBuckets of the third main.go variant lines
    1231-1253: Check decides suppression, then classifyPermissions replaces
    the permission in the emitted line. -/
def scanStepV3 (bucket : String) (resp listResp : Option Nat)
    (useAWS awsAvailable awsRunOk : Bool) : Option String :=
  let cp := S3Check resp
  if cp.2 = "" then none
  else some (resultLine (bucketURL bucket) cp.1
      (classifyPermissions listResp useAWS awsAvailable awsRunOk))

/-- getObjectCount of src/main.go lines 520-540: transport failure, a
    non-200 status, or an unparseable listing body give -1; otherwise the
    number of Contents entries. -/
def getObjectCount (resp : Option (Nat × Option Nat)) : Int :=
  match resp with
  | none => -1
  | some (code, body) =>
    if code ≠ 200 then -1
    else
      match body with
      | none => -1
      | some n => (n : Int)

/-- The non-public line of the second main.go scanBuckets, lines 619-625. -/
def v2Line (url region perm : String) : String :=
  "INFO exists | " ++ url ++ " | " ++ region ++ " | " ++ perm

/-- The public line of the second main.go scanBuckets, lines 610-616,
    with the object count appended. -/
def v2PublicLine (url region perm : String) (count : Int) : String :=
  v2Line url region perm ++ " | objects: " ++ toString count

/-- One iteration of scanBuckets of the second main.go variant lines
    589-628: suppression by ExistsV2, classification, and the PUBLIC branch
    that fetches the object count for the emitted line. -/
def scanStepV2 (bucket : String) (resp : Option Nat) (region : String)
    (listResp : Option Nat) (useAWS awsAvailable awsRunOk : Bool)
    (countResp : Option (Nat × Option Nat)) : Option String :=
  let ex := ExistsV2 resp
  if !ex.1 then none
  else
    let perm := classifyPermissions listResp useAWS awsAvailable awsRunOk
    if perm = "PUBLIC" then
      some (v2PublicLine (bucketURL bucket) region perm
        (getObjectCount countResp))
    else some (v2Line (bucketURL bucket) region perm)

/-- The ANSI color constants of part_003. -/
def Green : String := "\x1b[32m"

def Yellow : String := "\x1b[33m"

def RedCol : String := "\x1b[31m"

def Cyan : String := "\x1b[36m"

def ResetCol : String := "\x1b[0m"

/-- colorStatus of src/unnamed/part_003 lines 36-47. -/
def colorStatus (code : Nat) : String :=
  if 200 ≤ code ∧ code < 300 then Green
  else if 300 ≤ code ∧ code < 400 then Yellow
  else if 400 ≤ code ∧ code < 500 then RedCol
  else Cyan

/-- checkBucket of src/unnamed/part_003 lines 138-149: transport failure is
    (false, 0, url); otherwise any status other than 404 exists. -/
def checkBucket (bucket : String) (resp : Option Nat) : Bool × Nat × String :=
  match resp with
  | none => (false, 0, bucketURL bucket)
  | some code => (code != 404, code, bucketURL bucket)

/-- isExcluded of src/unnamed/part_003 lines 96-99 over the parsed
    exclude-code set. -/
def isExcluded (excludeStatus : Finset Nat) (code : Nat) : Bool :=
  decide (code ∈ excludeStatus)

/-- The found-bucket line of the part_003 worker, lines 376-382. -/
def workerLine (url : String) (code : Nat) : String :=
  url ++ " [" ++ colorStatus code ++ toString code ++ ResetCol ++
    "] [S3 Bucket Found]"

/-- The filter-and-emit tail of the part_003 worker, lines 364-389:
    sequential suppression on not-exists, on a set include filter that the
    code misses, and on membership in the exclude set; otherwise one line. -/
def workerEmit (existsFlag : Bool) (code : Nat) (url : String)
    (statusFilter : Nat) (excludeStatus : Finset Nat) : Option String :=
  if !existsFlag then none
  else if statusFilter != 0 && code != statusFilter then none
  else if isExcluded excludeStatus code then none
  else some (workerLine url code)

/-- One full worker iteration of part_003 lines 351-390. -/
def workerStep (bucket : String) (resp : Option Nat) (statusFilter : Nat)
    (excludeStatus : Finset Nat) : Option String :=
  let r := checkBucket bucket resp
  workerEmit r.1 r.2.1 r.2.2 statusFilter excludeStatus

/-- Go fmt left-justified padding to a field width, as in the percent
    minus ten s verbs of the first main.go scanBuckets. -/
def padRight (s : String) (w : Nat) : String :=
  s ++ String.mk (List.replicate (w - s.length) ' ')

/-- Round a/b to the nearest integer with ties to even, b positive. -/
def roundHalfEven (a b : Nat) : Nat :=
  let q := a / b
  let r := a % b
  if 2 * r < b then q
  else if b < 2 * r then q + 1
  else if q % 2 = 0 then q else q + 1

/-- Two decimal digits with a leading zero. -/
def pad2 (n : Nat) : String := if n < 10 then "0" ++ toString n else toString n

/-- humanSize of src/main.go lines 210-224. The Go float64 quotients by
    1024 are exact over the representable range and the printf rounding at
    the printed precision is round to nearest, ties to even, modeled here on
    integers. -/
def humanSize (bytes : Int) : String :=
  if bytes ≤ 0 then "0 B"
  else
    let n := bytes.toNat
    if n < 1024 * 1024 then
      let t := roundHalfEven (10 * n) 1024
      toString (t / 10) ++ "." ++ toString (t % 10) ++ " KB"
    else if n < 1024 * 1024 * 1024 then
      let t := roundHalfEven (10 * n) (1024 * 1024)
      toString (t / 10) ++ "." ++ toString (t % 10) ++ " MB"
    else
      let t := roundHalfEven (100 * n) (1024 * 1024 * 1024)
      toString (t / 100) ++ "." ++ pad2 (t % 100) ++ " GB"

/-- checkACL of src/main.go lines 143-177; the CLI interaction is explicit
    (flag, availability, command output or none on error). authUsers is
    never changed by the code, allUsers reflects the allusers grants found
    in the lowercased output. -/
def checkACL (useAWS awsAvailable : Bool) (cmdOut : Option String) :
    String × String :=
  if !useAWS then ("[]", "[]")
  else if !awsAvailable then ("[]", "[]")
  else
    match cmdOut with
    | none => ("[]", "[]")
    | some out =>
      let data := lowerStr out
      if containsSub data ("allusers") then
        if containsSub data ("read_acp") then ("[]", "[READ, READ_ACP]")
        else if containsSub data ("read") then ("[]", "[READ]")
        else ("[]", "[]")
      else ("[]", "[]")

/-- getBucketStats of src/main.go lines 181-206: transport failure or a
    non-200 status give (0, 0), as does an xml unmarshal failure; otherwise
    the number of Contents entries and the sum of their sizes. -/
def getBucketStats (resp : Option (Nat × Option (List Int))) : Nat × Int :=
  match resp with
  | none => (0, 0)
  | some (code, body) =>
    if code ≠ 200 then (0, 0)
    else
      match body with
      | none => (0, 0)
      | some sizes => (sizes.length, sizes.sum)

/-- The not-exists line of the first main.go scanBuckets, lines 288-295. -/
def notExistLine (url : String) (code : Nat) : String :=
  "INFO " ++ padRight ("not_exist") 10 ++ " | " ++ url ++ " | status:" ++
    toString code

/-- The zero-count line of the first main.go scanBuckets, lines 303-311. -/
def v1PrivateLine (url region : String) : String :=
  "INFO " ++ padRight ("exists") 10 ++ " | " ++ url ++ " | " ++
    padRight region 10 ++ " | PRIVATE"

/-- The stats line of the first main.go scanBuckets, lines 314-323. -/
def v1StatsLine (url region authUsers allUsers : String) (count : Nat)
    (size : Int) : String :=
  "INFO " ++ padRight ("exists") 10 ++ " | " ++ url ++ " | " ++
    padRight region 10 ++ " | AuthUsers:" ++ authUsers ++ " | AllUsers:" ++
    allUsers ++ " | " ++ toString count ++ " objects (" ++ humanSize size ++ ")"

/-- One iteration of scanBuckets of the first main.go variant, lines
    276-326, after the seen-set dedup: this sink always writes exactly one
    line per candidate (the code comments it with always show result), an
    INFO not_exist line when Exists is false, a PRIVATE line when the
    listing yields zero objects, and the stats line otherwise. -/
def scanStepV1 (bucket : String) (resp : Option Nat) (region : String)
    (useAWS awsAvailable : Bool) (aclOut : Option String)
    (statsResp : Option (Nat × Option (List Int))) : String :=
  let er := S3Exists resp
  if !er.1 then notExistLine (bucketURL bucket) er.2
  else
    let acl := checkACL useAWS awsAvailable aclOut
    let cs := getBucketStats statsResp
    if cs.1 = 0 then v1PrivateLine (bucketURL bucket) region
    else v1StatsLine (bucketURL bucket) region acl.1 acl.2 cs.1 cs.2

/-- fetchFromGrayHatWarfare of src/unnamed/part_003 lines 167-196. The
    environment and network are explicit: the GHW_API_KEY value if set, and
    the HTTP outcome as status plus decoded bucket-name list (none for a
    transport failure, an inner none for a JSON decode failure). Every
    failure silently yields the empty list. -/
def fetchFromGrayHatWarfare (apiKey : Option String)
    (resp : Option (Nat × Option (List String))) : List String :=
  match apiKey with
  | none => []
  | some _ =>
    match resp with
    | none => []
    | some (code, body) =>
      if code ≠ 200 then []
      else
        match body with
        | none => []
        | some buckets => buckets

/-- generateWordlist of src/unnamed/part_003 lines 305-347: the permutation
    loops of generateWordlist plus the candidates merged in from the
    GrayHatWarfare and osint.sh feeds, whose fetched results are explicit
    arguments here. -/
def generateWordlistNet (pfx : String) (words ghw osint : List String) :
    Finset String :=
  insert pfx ((envCombos pfx words).toFinset ∪ (hostCombos pfx words).toFinset
    ∪ ghw.toFinset ∪ osint.toFinset)

/-- Line splitting of bufio.Scanner, accumulator over characters. -/
def splitLinesAux : List Char → List Char → List String
  | [], acc => [String.mk acc.reverse]
  | c :: rest, acc =>
    if c = '\n' then String.mk acc.reverse :: splitLinesAux rest []
    else splitLinesAux rest (c :: acc)

/-- All lines of a string. -/
def splitLines (s : String) : List String := splitLinesAux s.data []

/-- strings.TrimSpace. -/
def trimStr (s : String) : String :=
  String.mk
    (((s.data.dropWhile Char.isWhitespace).reverse.dropWhile
        Char.isWhitespace).reverse)

/-- The scanner loop shared by every wordlist loader: trimmed non-blank
    lines of the content. -/
def wordlistLinesOf (content : String) : List String :=
  ((splitLines content).map trimStr).filter (fun l => l ≠ "")

/-- initWordlist of src/main.go lines 58-87. The file system is explicit:
    custom is the content of the requested wordlist file when the path was
    given and readable, none otherwise. A zero-length custom content falls
    back to the embedded wordlist; loading zero non-blank lines is the
    wordlist-empty error. -/
def initWordlist (custom : Option String) (embedded : String) :
    Except String (List String) :=
  let content :=
    match custom with
    | some data => if data.length > 0 then data else embedded
    | none => embedded
  let ws := wordlistLinesOf content
  if ws = [] then Except.error ("wordlist empty") else Except.ok ws

/-- The four observable outcomes of main in src/main.go lines 331-363:
    the non-zero usage exit, the early return on a wordlist error, the early
    return on an output-file creation error, and a scan over the generated
    candidates. -/
inductive MainOutcome where
  | usageExit (code : Nat)
  | wordlistAbort
  | outputAbort
  | runScan (candidates : Finset String)
deriving DecidableEq

/-- main of src/main.go lines 331-363: missing target exits with code 1;
    a wordlist error aborts; a requested but failing output-file creation
    aborts; otherwise the scan runs over the generated candidate set. -/
def mainOutcome (target : String) (custom : Option String) (embedded : String)
    (outputRequested createOk : Bool) : MainOutcome :=
  if target = "" then MainOutcome.usageExit 1
  else
    match initWordlist custom embedded with
    | Except.error _ => MainOutcome.wordlistAbort
    | Except.ok words =>
      if outputRequested && !createOk then MainOutcome.outputAbort
      else MainOutcome.runScan (generateWordlistEnvOnly target words)

/-- Every string of the two-part loop for a listed word is in the output set. -/
theorem mem_generateWordlist_of_mem_host (pfx : String) (ws : List String)
    (w : String) (hw : w ∈ ws) (s : String)
    (hs : s ∈ hostFormats pfx w ++ hostFormats w pfx) :
    s ∈ generateWordlist pfx ws := by
  unfold generateWordlist
  apply Finset.mem_insert_of_mem
  apply Finset.mem_union_right
  simp only [hostCombos, List.mem_toFinset, List.mem_flatMap]
  exact ⟨w, hw, hs⟩

/-- C1 counterexample: for target "acme" and word list ["data"] the generated
    set does not have 42 elements (it has 47 = 1 + 8 environments times
    5 templates + 6 two-part combinations, with no collisions). -/
theorem c1_counterexample : (generateWordlist "acme" ["data"]).card ≠ 42 := by
  decide

set_option maxRecDepth 40000 in
/-- C1 (amended): for target "acme" and word list ["data"], generate returns
    exactly the 47-element set consisting of "acme" itself, the five env-tag
    templates across all 8 environments, and the six two-part combinations. -/
theorem c1_acme_data_exact :
    generateWordlist "acme" ["data"] =
      ({"acme",
        "acme-data-dev", "acme-data.dev", "acme-datadev",
        "acme.data-dev", "acme.data.dev",
        "acme-data-development", "acme-data.development", "acme-datadevelopment",
        "acme.data-development", "acme.data.development",
        "acme-data-stage", "acme-data.stage", "acme-datastage",
        "acme.data-stage", "acme.data.stage",
        "acme-data-s3", "acme-data.s3", "acme-datas3",
        "acme.data-s3", "acme.data.s3",
        "acme-data-staging", "acme-data.staging", "acme-datastaging",
        "acme.data-staging", "acme.data.staging",
        "acme-data-prod", "acme-data.prod", "acme-dataprod",
        "acme.data-prod", "acme.data.prod",
        "acme-data-production", "acme-data.production", "acme-dataproduction",
        "acme.data-production", "acme.data.production",
        "acme-data-test", "acme-data.test", "acme-datatest",
        "acme.data-test", "acme.data.test",
        "acme.data", "acme-data", "acmedata",
        "data.acme", "data-acme", "dataacme"} : Finset String) ∧
    (generateWordlist "acme" ["data"]).card = 47 := by
  constructor
  · decide
  · decide

/-- C3 counterexample: the generateWordlist of src/main.go lines 228-252
    has no two-part loop, so for target "acme" and word list ["data"] none
    of the six two-part combinations is produced, although "data" is in the
    word list. -/
theorem c3_counterexample :
    ("data" : String) ∈ (["data"] : List String) ∧
    "acme.data" ∉ generateWordlistEnvOnly ("acme") (["data"]) ∧
    "acme-data" ∉ generateWordlistEnvOnly ("acme") (["data"]) ∧
    "acmedata" ∉ generateWordlistEnvOnly ("acme") (["data"]) ∧
    "data.acme" ∉ generateWordlistEnvOnly ("acme") (["data"]) ∧
    "data-acme" ∉ generateWordlistEnvOnly ("acme") (["data"]) ∧
    "dataacme" ∉ generateWordlistEnvOnly ("acme") (["data"]) := by
  decide

/-- C3 (amended): for every target and every word in the word list, the
    output of the generateWordlist variants with the two-part loop
    (part_000 lines 113-119, part_002, part_003 and the later main.go
    variants) contains all six two-part combinations, independently of the
    environment-tag combinations; the first main.go variant lacks that loop
    and produces none of them for target "acme" and word list ["data"]. -/
theorem c3_two_part_combinations (pfx : String) (ws : List String)
    (w : String) (hw : w ∈ ws) :
    pfx ++ "." ++ w ∈ generateWordlist pfx ws ∧
    pfx ++ "-" ++ w ∈ generateWordlist pfx ws ∧
    pfx ++ w ∈ generateWordlist pfx ws ∧
    w ++ "." ++ pfx ∈ generateWordlist pfx ws ∧
    w ++ "-" ++ pfx ∈ generateWordlist pfx ws ∧
    w ++ pfx ∈ generateWordlist pfx ws := by
  refine ⟨?_, ?_, ?_, ?_, ?_, ?_⟩ <;>
    apply mem_generateWordlist_of_mem_host pfx ws w hw <;>
    simp [hostFormats]

/-- C3 witness: the six two-part combinations at target "acme", word "data". -/
theorem c3_two_part_combinations_witness :
    "acme" ++ "." ++ "data" ∈ generateWordlist "acme" ["data"] ∧
    "acme" ++ "-" ++ "data" ∈ generateWordlist "acme" ["data"] ∧
    "acme" ++ "data" ∈ generateWordlist "acme" ["data"] ∧
    "data" ++ "." ++ "acme" ∈ generateWordlist "acme" ["data"] ∧
    "data" ++ "-" ++ "acme" ∈ generateWordlist "acme" ["data"] ∧
    "data" ++ "acme" ∈ generateWordlist "acme" ["data"] :=
  c3_two_part_combinations "acme" ["data"] "data" (by decide)

/-- C9: with an empty word list generate returns exactly the singleton of the
    target, and for any target and word list the generated set is nonempty;
    this holds for both the full generator and the env-only main.go variant. -/
theorem c9_singleton_and_nonempty :
    (∀ pfx, generateWordlist pfx [] = {pfx}) ∧
    (∀ pfx ws, generateWordlist pfx ws ≠ ∅) ∧
    (∀ pfx, generateWordlistEnvOnly pfx [] = {pfx}) ∧
    (∀ pfx ws, generateWordlistEnvOnly pfx ws ≠ ∅) := by
  refine ⟨?_, ?_, ?_, ?_⟩
  · intro pfx; simp [generateWordlist, envCombos, hostCombos]
  · intro pfx ws; exact Finset.ne_empty_of_mem (Finset.mem_insert_self pfx _)
  · intro pfx; simp [generateWordlistEnvOnly, envCombos]
  · intro pfx ws; exact Finset.ne_empty_of_mem (Finset.mem_insert_self pfx _)

/-- C2 counterexample: a candidate whose probe fails at transport level
    (outcome none, Check gives status 0 and an empty permission) is still
    reported PUBLIC by the part_002 scan loop when the AWS CLI fallback is
    enabled, available and its no-credential listing exits cleanly. -/
theorem c2_counterexample :
    S3Check none = (0, "") ∧
    scanStep002 ("data-acme") none true true true "" =
      some ("http://data-acme.s3.amazonaws.com | 0 | PUBLIC") := by
  constructor
  · rfl
  · decide

/-- C2 (amended): when the AWS CLI check yields no signal (disabled, binary
    missing, or inconclusive output), a transport-level probe failure gives
    existsFlag false, status 0, an empty permission, and the candidate is
    never reported PUBLIC or PRIVATE (no line at all). -/
theorem c2_transport_failure_no_aws_signal (b : String) (u a r : Bool)
    (o : String) (h : awsPermissionCheck u a r o = "") :
    S3Exists none = (false, 0) ∧ S3Check none = (0, "") ∧
    scanStep002 b none u a r o = none := by
  refine ⟨rfl, rfl, ?_⟩
  simp [scanStep002, S3Check, h]

/-- C2 witness: with the AWS flag off, a transport-failed candidate is
    suppressed. -/
theorem c2_transport_failure_no_aws_signal_witness :
    S3Exists none = (false, 0) ∧ S3Check none = (0, "") ∧
    scanStep002 ("acme") none false true true "" = none :=
  c2_transport_failure_no_aws_signal "acme" false true true "" (by decide)

/-- C5 counterexample: the result sink of the first main.go scanBuckets
    (lines 266-327) does not suppress a result with existsFlag false; a
    transport-failed candidate, which Exists maps to (false, 0), is emitted
    as an INFO not_exist line instead of being suppressed. -/
theorem c5_counterexample :
    S3Exists none = (false, 0) ∧
    scanStepV1 ("acme") none ("us-east-1") false false none none =
      "INFO not_exist  | http://acme.s3.amazonaws.com | status:0" := by
  constructor
  · rfl
  · decide

/-- C5 (amended): the filtered sink of the part_003 worker suppresses a
    result exactly when the existence flag is false, or the include filter
    is set and differs from the status code, or the status code is in the
    exclude set, and otherwise emits exactly the one formatted line; the
    first main.go scanBuckets instead never suppresses: every processed
    candidate yields exactly one line, a not-exists result yielding the
    INFO not_exist line carrying its status code. -/
theorem c5_sink_behavior :
    (∀ ex code url sf excl, workerEmit ex code url sf excl =
      if ex = false ∨ (sf ≠ 0 ∧ code ≠ sf) ∨ code ∈ excl then none
      else some (workerLine url code)) ∧
    (∀ b region u a aclOut statsResp,
      scanStepV1 b none region u a aclOut statsResp =
        notExistLine (bucketURL b) 0) := by
  constructor
  · intro ex code url sf excl
    cases ex <;>
      simp only [workerEmit, isExcluded, Bool.not_true, Bool.not_false,
        if_true, if_false] <;>
      split_ifs <;>
      simp_all
  · intro b region u a aclOut statsResp
    rfl

/-- C6: a candidate whose existence probe returns 403 is classified PRIVATE
    and reported as url, 403, PRIVATE, both by the part_000 scan loop and by
    the third main.go scan loop whenever the listing request is not a 200 and
    the AWS CLI gives no public signal. -/
theorem c6_403_reported_private (b : String) (listResp : Option Nat)
    (u a r : Bool) (hlist : listResp ≠ some 200)
    (haws : (u && a && r) = false) :
    scanStep000 b (some 403) =
      some (resultLine (bucketURL b) 403 ("PRIVATE")) ∧
    classifyPermissions listResp u a r = "PRIVATE" ∧
    scanStepV3 b (some 403) listResp u a r =
      some (resultLine (bucketURL b) 403 ("PRIVATE")) := by
  have hcl : classifyPermissions listResp u a r = "PRIVATE" := by
    simp [classifyPermissions, haws]
    intro hc
    exact absurd (by simpa using hc) hlist
  refine ⟨rfl, hcl, ?_⟩
  simp [scanStepV3, S3Check, hcl]

/-- C6 witness: bucket "secret" with a 403 probe, no public listing and no
    AWS signal, yields the PRIVATE line in both scan loops. -/
theorem c6_403_reported_private_witness :
    scanStep000 ("secret") (some 403) =
      some ("http://secret.s3.amazonaws.com | 403 | PRIVATE") ∧
    classifyPermissions none false false false = "PRIVATE" ∧
    scanStepV3 ("secret") (some 403) none false false false =
      some ("http://secret.s3.amazonaws.com | 403 | PRIVATE") :=
  c6_403_reported_private "secret" none false false false (by decide) (by decide)

/-- C10: when classification yields PUBLIC but the object-count listing
    request fails (transport error, non-200 status, or unparseable body),
    getObjectCount is -1 and the emitted line of the second main.go scan
    loop reports objects: -1 rather than omitting the count. -/
theorem c10_public_count_negative_one (b : String) (resp : Option Nat)
    (region : String) (listResp : Option Nat) (u a r : Bool)
    (cr : Option (Nat × Option Nat))
    (hex : (ExistsV2 resp).1 = true)
    (hpub : classifyPermissions listResp u a r = "PUBLIC")
    (hfail : cr = none ∨ ∃ c bo, cr = some (c, bo) ∧ (c ≠ 200 ∨ bo = none)) :
    getObjectCount cr = -1 ∧
    scanStepV2 b resp region listResp u a r cr =
      some (v2PublicLine (bucketURL b) region ("PUBLIC") (-1)) := by
  have hcount : getObjectCount cr = -1 := by
    rcases hfail with h | ⟨c, bo, hcr, hcb⟩
    · rw [h]; rfl
    · rcases hcb with hc | hb
      · rw [hcr]; simp [getObjectCount, hc]
      · rw [hcr, hb]
        by_cases hc : c = 200 <;> simp [getObjectCount, hc]
  refine ⟨hcount, ?_⟩
  simp [scanStepV2, hex, hpub, hcount]

/-- C10 witness: an existing 200 bucket, PUBLIC via a 200 listing response,
    but a transport failure on the count request, gives the objects: -1
    line. -/
theorem c10_public_count_negative_one_witness :
    getObjectCount none = -1 ∧
    scanStepV2 ("pub") (some 200) ("us-east-1") (some 200) false false false
        none =
      some ("INFO exists | http://pub.s3.amazonaws.com | us-east-1 | PUBLIC | objects: -1") :=
  c10_public_count_negative_one "pub" (some 200) "us-east-1" (some 200)
    false false false none (by decide) (by decide) (Or.inl rfl)

/-- C4 counterexample: the part_003 generator called with identical target
    and word list does not return identical sets once the GrayHatWarfare
    feed contributes a candidate, so its output does not depend only on the
    two arguments. -/
theorem c4_counterexample :
    generateWordlistNet ("acme") [] (["leaked-bucket"]) [] ≠
      generateWordlistNet ("acme") [] [] [] := by
  decide

/-- C4 (amended): the part_003 generator is the pure permutation set
    united with the two feed results, hence deterministic once the feed
    responses are fixed and equal to the pure generator exactly when both
    feeds contribute nothing; every GrayHatWarfare failure (missing key,
    transport failure, non-200 status, decode failure) contributes
    nothing. -/
theorem c4_net_generator_characterized :
    (∀ pfx words ghw osint, generateWordlistNet pfx words ghw osint =
      generateWordlist pfx words ∪ ghw.toFinset ∪ osint.toFinset) ∧
    (∀ pfx words,
      generateWordlistNet pfx words [] [] = generateWordlist pfx words) ∧
    (∀ resp, fetchFromGrayHatWarfare none resp = []) ∧
    (∀ key, fetchFromGrayHatWarfare (some key) none = []) ∧
    (∀ key body, fetchFromGrayHatWarfare (some key) (some (404, body)) = []) ∧
    (∀ key, fetchFromGrayHatWarfare (some key) (some (200, none)) = []) := by
  refine ⟨?_, ?_, ?_, ?_, ?_, ?_⟩
  · intro pfx words ghw osint
    ext x
    simp [generateWordlistNet, generateWordlist]
  · intro pfx words
    simp [generateWordlistNet, generateWordlist]
  · intro resp; rfl
  · intro key; rfl
  · intro key body; rfl
  · intro key; rfl

/-- C7 counterexample: with a present target and a wordlist that loads one
    word (so a nonempty candidate set), a failing output-file creation still
    aborts the run before scanning, so missing target and an empty candidate
    set are not the only aborts. -/
theorem c7_counterexample :
    mainOutcome ("acme") none ("data") true false = MainOutcome.outputAbort ∧
    ("acme" : String) ≠ "" ∧
    initWordlist none ("data") = Except.ok (["data"]) ∧
    generateWordlistEnvOnly ("acme") (["data"]) ≠ ∅ := by
  refine ⟨rfl, by decide, rfl, by decide⟩

/-- C7 (amended): a missing target is a fatal usage error with exit code 1;
    a wordlist loading zero non-blank words aborts before scanning, and so
    does a requested output file whose creation fails; a zero-length custom
    wordlist file degrades gracefully by behaving exactly like the embedded
    fallback, and with a usable wordlist and a working (or absent) output
    file the scan runs over the generated candidates. -/
theorem c7_abort_behavior (t : String) (ht : t ≠ "") :
    (∀ c e oq ok, mainOutcome "" c e oq ok = MainOutcome.usageExit 1) ∧
    (∀ oq ok, mainOutcome t none "" oq ok = MainOutcome.wordlistAbort) ∧
    (∀ e oq ok,
      mainOutcome t (some "") e oq ok = mainOutcome t none e oq ok) ∧
    mainOutcome t none ("data") true false = MainOutcome.outputAbort ∧
    mainOutcome t none ("data") true true =
      MainOutcome.runScan (generateWordlistEnvOnly t (["data"])) ∧
    (∀ ok, mainOutcome t none ("data") false ok =
      MainOutcome.runScan (generateWordlistEnvOnly t (["data"]))) := by
  have hempty : initWordlist none "" = Except.error ("wordlist empty") := rfl
  have hdata : initWordlist none ("data") = Except.ok (["data"]) := rfl
  refine ⟨?_, ?_, ?_, ?_, ?_, ?_⟩
  · intro c e oq ok; simp [mainOutcome]
  · intro oq ok; simp [mainOutcome, ht, hempty]
  · intro e oq ok
    have hsame : initWordlist (some "") e = initWordlist none e := by
      simp [initWordlist]
    simp only [mainOutcome, hsame]
  · simp [mainOutcome, ht, hdata]
  · simp [mainOutcome, ht, hdata]
  · intro ok; simp [mainOutcome, ht, hdata]

/-- C7 witness: the amended abort behavior at the concrete target "acme". -/
theorem c7_abort_behavior_witness :
    (∀ c e oq ok, mainOutcome "" c e oq ok = MainOutcome.usageExit 1) ∧
    (∀ oq ok, mainOutcome ("acme") none "" oq ok =
      MainOutcome.wordlistAbort) ∧
    (∀ e oq ok, mainOutcome ("acme") (some "") e oq ok =
      mainOutcome ("acme") none e oq ok) ∧
    mainOutcome ("acme") none ("data") true false =
      MainOutcome.outputAbort ∧
    mainOutcome ("acme") none ("data") true true =
      MainOutcome.runScan (generateWordlistEnvOnly ("acme") (["data"])) ∧
    (∀ ok, mainOutcome ("acme") none ("data") false ok =
      MainOutcome.runScan (generateWordlistEnvOnly ("acme") (["data"]))) :=
  c7_abort_behavior "acme" (by decide)

end S3Checker
